import Mathlib

/-!
Shallow embedding of gridlock.py (bjorn-fischer/gridlock), the grid-based
window move/resize tool.  The embedded core is the `Rect` cell-rectangle
class, the coordinate mapper `set_target_geometry_from_cursor`, and the
drag state machine formed by the event handlers `on_key_press`,
`on_mouse_press`, `on_mouse_release` and `on_mouse_move`.

Modelling conventions:
* Python ints become `ℤ`; the floating-point cell sizes
  (`allocation.width / self.cols`) and pointer coordinates (`event.x`)
  become exact rationals `ℚ`, and Python `int()` becomes truncation
  toward zero (`truncQ`).
* Side effects on the target window (`Wnck.Window.set_geometry`,
  `unmaximize`, `maximize*`) are recorded as a trace of `HostCall`s in
  the state, in emission order; `Gtk.main_quit` is a `quit` flag.
* An uncaught Python exception (the `TypeError` raised by
  `min(None, ...)` in `Rect.to_cairo` when a field is unset, or the
  `AttributeError` on reading `last_cursor_rect` before any press) is
  modelled as `none`: a step of the machine returns `Option GLState`.
* Session-constant data (grid spec, grid window origin, the parsed
  `args.offset`, `_GTK_FRAME_EXTENTS`, `--live-preview`, and the
  original-geometry snapshot taken in `GridLock.__init__`) is a `Config`.
  The gravity argument and move-resize mask passed to `set_geometry` are
  session constants with no influence on the computed rectangle and are
  not modelled; neither are the pure drawing handlers (`on_draw_*`) nor
  the cursor-hiding UI flag `--hide-cursor`.
-/

namespace Gridlock

/-- Python `int()` applied to an exact rational: truncation toward zero. -/
def truncQ (q : ℚ) : ℤ := q.num.tdiv (q.den : ℤ)

/-- An (x, y, width, height) quadruple as passed to
`Wnck.Window.set_geometry` and returned by `get_geometry`. -/
structure Geometry where
  x : ℤ
  y : ℤ
  w : ℤ
  h : ℤ
deriving DecidableEq

/-- Component-wise sum, the `tuple(sum(x) for x in zip(geometry, off))`
idiom of `set_target_geometry_from_cursor`. -/
def Geometry.add (a b : Geometry) : Geometry :=
  ⟨a.x + b.x, a.y + b.y, a.w + b.w, a.h + b.h⟩

/-- `class Rect`: a two-corner cell rectangle whose fields start as
`None` (gridlock.py lines 63-69). -/
structure Rect where
  x1 : Option ℤ
  y1 : Option ℤ
  x2 : Option ℤ
  y2 : Option ℤ
deriving DecidableEq

/-- `Rect()` with no arguments: all four fields `None`. -/
def Rect.empty : Rect := ⟨none, none, none, none⟩

/-- `Rect.__bool__`: true iff all four fields are set. -/
def Rect.isValid (r : Rect) : Bool :=
  r.x1.isSome && r.y1.isSome && r.x2.isSome && r.y2.isSome

/-- `Rect.to_cairo(scale_x, scale_y)` (gridlock.py lines 86-97):
normalize the two corners by min/max per axis and scale to pixel space,
each component truncated by `map(int, ...)`.  On a rect with an unset
field, Python's `min`/`max` raise `TypeError`; that is the `none` case. -/
def Rect.to_cairo (r : Rect) (scale_x scale_y : ℚ) : Option Geometry :=
  match r.x1, r.y1, r.x2, r.y2 with
  | some a, some b, some c, some d =>
      let x1 := min a c
      let y1 := min b d
      let x2 := max a c
      let y2 := max b d
      some ⟨truncQ ((x1 : ℚ) * scale_x),
            truncQ ((y1 : ℚ) * scale_y),
            truncQ (((1 + x2 - x1 : ℤ) : ℚ) * scale_x),
            truncQ (((1 + y2 - y1 : ℤ) : ℚ) * scale_y)⟩
  | _, _, _, _ => none

/-- The min/max-normalized corners of a `Rect`, without scaling: the
"normalized rectangle" the spec speaks about.  `none` on a rect with an
unset field. -/
def Rect.normalized (r : Rect) : Option (ℤ × ℤ × ℤ × ℤ) :=
  match r.x1, r.y1, r.x2, r.y2 with
  | some a, some b, some c, some d =>
      some (min a c, min b d, max a c, max b d)
  | _, _, _, _ => none

/-- Session-constant configuration and the original-geometry snapshot
taken once in `GridLock.__init__` (gridlock.py lines 106, 123-126). -/
structure Config where
  /-- `args.grid` columns. -/
  cols : ℤ
  /-- `args.grid` rows. -/
  rows : ℤ
  /-- `self.grid.get_allocation().width`: grid content area width. -/
  allocW : ℤ
  /-- `self.grid.get_allocation().height`: grid content area height. -/
  allocH : ℤ
  /-- `self.wnck_window.get_geometry()` x: grid window origin. -/
  gridX : ℤ
  /-- `self.wnck_window.get_geometry()` y: grid window origin. -/
  gridY : ℤ
  /-- `args.offset`, zero-padded to four components at startup. -/
  offset : Geometry
  /-- The `_GTK_FRAME_EXTENTS` property `(left, right, top, bottom)` of
  the target window, or `none` when the property is absent. -/
  frameExtents : Option (ℤ × ℤ × ℤ × ℤ)
  /-- `args.live_preview`. -/
  live_preview : Bool
  /-- `self.target_orig_geometry`. -/
  origGeometry : Geometry
  /-- `self.target_orig_maximized_vert`. -/
  origMaxVert : Bool
  /-- `self.target_orig_maximized_horiz`. -/
  origMaxHoriz : Bool
  /-- `self.target_orig_maximized`. -/
  origMax : Bool
deriving DecidableEq

/-- `get_gtk_frame_offset` (gridlock.py lines 46-60): turn the
`_GTK_FRAME_EXTENTS` property into an additive geometry correction
`(-left, -top, left+right, top+bottom)`, or zero when absent. -/
def get_gtk_frame_offset (prop : Option (ℤ × ℤ × ℤ × ℤ)) : Geometry :=
  match prop with
  | some (left, right, top, bottom) => ⟨-left, -top, left + right, top + bottom⟩
  | none => ⟨0, 0, 0, 0⟩

/-- One observable call on the target window through the Wnck adapter. -/
inductive HostCall where
  | setGeometry (g : Geometry)
  | unmaximize
  | maximize_vertically
  | maximize_horizontally
  | maximize
deriving DecidableEq

/-- The mutable state of a `GridLock` session. -/
structure GLState where
  /-- `self.drag`. -/
  drag : Bool
  /-- `self.cursor_rect`. -/
  cursor_rect : Rect
  /-- `self.last_cursor_rect`; `none` models the attribute not yet
  existing (it is first assigned in `on_mouse_press`). -/
  last_cursor_rect : Option Rect
  /-- Whether `self.target.is_maximized()` currently holds. -/
  targetMaximized : Bool
  /-- Whether `Gtk.main_quit()` has been called. -/
  quit : Bool
  /-- Trace of calls issued on the target window, in emission order. -/
  calls : List HostCall
deriving DecidableEq

/-- State after `GridLock.__init__`: not dragging, empty cursor rect,
no `last_cursor_rect` attribute, target maximization as snapshot. -/
def initState (c : Config) : GLState :=
  { drag := false
    cursor_rect := Rect.empty
    last_cursor_rect := none
    targetMaximized := c.origMax
    quit := false
    calls := [] }

/-- `set_raw_target_geometry` (gridlock.py lines 195-208): forward the
four components to `Wnck.Window.set_geometry`. -/
def set_raw_target_geometry (st : GLState) (g : Geometry) : GLState :=
  { st with calls := st.calls ++ [HostCall.setGeometry g] }

/-- The pure computation inside `set_target_geometry_from_cursor`
(gridlock.py lines 171-184): scale the cursor rect to local pixels,
translate by the grid window origin, then add `args.offset` and the
`_GTK_FRAME_EXTENTS` correction component-wise. -/
def compute_target_geometry (c : Config) (r : Rect) : Option Geometry :=
  let cell_width : ℚ := (c.allocW : ℚ) / (c.cols : ℚ)
  let cell_height : ℚ := (c.allocH : ℚ) / (c.rows : ℚ)
  (r.to_cairo cell_width cell_height).map fun b =>
    (Geometry.add (Geometry.add ⟨b.x + c.gridX, b.y + c.gridY, b.w, b.h⟩
      c.offset) (get_gtk_frame_offset c.frameExtents))

/-- `set_target_geometry_from_cursor` (gridlock.py lines 167-193): if
the target is maximized, unmaximize it first; then compute the new
geometry from `cursor_rect` and issue it via `set_raw_target_geometry`.
`none` when `cursor_rect` has an unset field (`TypeError` in
`to_cairo`). -/
def set_target_geometry_from_cursor (c : Config) (st : GLState) : Option GLState :=
  match compute_target_geometry c st.cursor_rect with
  | some g =>
      some { st with
        targetMaximized := false
        calls := st.calls
          ++ (if st.targetMaximized then [HostCall.unmaximize] else [])
          ++ [HostCall.setGeometry g] }
  | none => none

/-- `restore_target_geometry` (gridlock.py lines 324-331): reissue the
snapshot geometry, then re-apply the originally set maximize flags in
the order vertically, horizontally, fully. -/
def restore_target_geometry (c : Config) (st : GLState) : GLState :=
  { st with
    targetMaximized := if c.origMax then true else st.targetMaximized
    calls := st.calls ++ HostCall.setGeometry c.origGeometry ::
      ((if c.origMaxVert then [HostCall.maximize_vertically] else [])
        ++ (if c.origMaxHoriz then [HostCall.maximize_horizontally] else [])
        ++ (if c.origMax then [HostCall.maximize] else [])) }

/-- `Gtk.main_quit()`. -/
def gtk_main_quit (st : GLState) : GLState := { st with quit := true }

/-- `Gdk.KEY_q`. -/
def KEY_q : Nat := 113

/-- `Gdk.KEY_Escape`. -/
def KEY_Escape : Nat := 65307

/-- `on_key_press` (gridlock.py lines 271-278): `q` or Escape aborts,
restoring the target first when live preview is on. -/
def on_key_press (c : Config) (st : GLState) (keyval : Nat) : GLState :=
  if keyval = KEY_q ∨ keyval = KEY_Escape then
    gtk_main_quit (if c.live_preview then restore_target_geometry c st else st)
  else st

/-- `on_mouse_press` (gridlock.py lines 280-293): button 1 starts a
drag and snapshots `cursor_rect` into `last_cursor_rect`; any other
button aborts, restoring the target first when live preview is on. -/
def on_mouse_press (c : Config) (st : GLState) (button : Nat) : GLState :=
  if button = 1 then
    { st with drag := true, last_cursor_rect := some st.cursor_rect }
  else
    gtk_main_quit (if c.live_preview then restore_target_geometry c st else st)

/-- `on_mouse_release` (gridlock.py lines 295-300): button 1 ends the
drag, runs the coordinate mapper on the final `cursor_rect` and quits;
other buttons are ignored. -/
def on_mouse_release (c : Config) (st : GLState) (button : Nat) : Option GLState :=
  if button = 1 then
    (set_target_geometry_from_cursor c { st with drag := false }).map gtk_main_quit
  else some st

/-- `on_mouse_move` (gridlock.py lines 302-322): while dragging update
only the second corner and, under live preview, recommit through the
mapper when the stored rect differs from `last_cursor_rect`; while not
dragging both corners track the pointer cell. -/
def on_mouse_move (c : Config) (st : GLState) (x y : ℚ) : Option GLState :=
  let cell_width : ℚ := (c.allocW : ℚ) / (c.cols : ℚ)
  let cell_height : ℚ := (c.allocH : ℚ) / (c.rows : ℚ)
  let cx : ℤ := truncQ (x / cell_width)
  let cy : ℤ := truncQ (y / cell_height)
  if st.drag then
    let r : Rect := { st.cursor_rect with x2 := some cx, y2 := some cy }
    let st1 : GLState := { st with cursor_rect := r }
    if c.live_preview then
      match st1.last_cursor_rect with
      | none => none
      | some l =>
          if l ≠ r then
            set_target_geometry_from_cursor c { st1 with last_cursor_rect := some r }
          else some st1
    else some st1
  else
    some { st with cursor_rect := ⟨some cx, some cy, some cx, some cy⟩ }

/-- One input event delivered by the Gtk main loop. -/
inductive Event where
  | keyPress (keyval : Nat)
  | mousePress (button : Nat)
  | mouseRelease (button : Nat)
  | mouseMove (x y : ℚ)
deriving DecidableEq

/-- Dispatch one event to its handler. -/
def step (c : Config) (st : GLState) : Event → Option GLState
  | Event.keyPress k => some (on_key_press c st k)
  | Event.mousePress b => some (on_mouse_press c st b)
  | Event.mouseRelease b => on_mouse_release c st b
  | Event.mouseMove x y => on_mouse_move c st x y

/-- Run the machine from the initial state over an event sequence. -/
def run (c : Config) (es : List Event) : Option GLState :=
  es.foldlM (step c) (initState c)

/-- The spec's own wording of `normalized_pixel_box(cell_width,
cell_height)` (spec §4.1), written independently of the source for the
refinement claim: primed min/max corners, then
`(x1'*cell_width, y1'*cell_height, (1+x2'-x1')*cell_width,
(1+y2'-y1')*cell_height)`, each truncated to integer. -/
def normalized_pixel_box_spec (x1 y1 x2 y2 : ℤ) (cell_width cell_height : ℚ) : Geometry :=
  let x1' := min x1 x2
  let y1' := min y1 y2
  let x2' := max x1 x2
  let y2' := max y1 y2
  ⟨truncQ ((x1' : ℚ) * cell_width),
   truncQ ((y1' : ℚ) * cell_height),
   truncQ (((1 + x2' - x1' : ℤ) : ℚ) * cell_width),
   truncQ (((1 + y2' - y1' : ℤ) : ℚ) * cell_height)⟩

/-- The spec's worked example session: 4 columns over an 800x400 grid
content area at origin (0,0), 2 rows as the example says, no user
offset, zero frame extents, live preview off, and an unmaximized
target whose snapshot geometry is (10,20,300,400). -/
def exampleConfig : Config :=
  { cols := 4
    rows := 2
    allocW := 800
    allocH := 400
    gridX := 0
    gridY := 0
    offset := ⟨0, 0, 0, 0⟩
    frameExtents := some (0, 0, 0, 0)
    live_preview := false
    origGeometry := ⟨10, 20, 300, 400⟩
    origMaxVert := false
    origMaxHoriz := false
    origMax := false }

/-- The cancel triggers: `q` or Escape on the keyboard, or any mouse
button other than button 1. -/
def isCancel : Event → Bool
  | Event.keyPress k => decide (k = KEY_q ∨ k = KEY_Escape)
  | Event.mousePress b => decide (b ≠ 1)
  | _ => false

/-- State invariant of the drag machine: while dragging,
`last_cursor_rect` exists and shares the anchor corner (`x1`, `y1`)
with `cursor_rect` (the anchor is frozen for the whole drag). -/
def DragInv (st : GLState) : Prop :=
  st.drag = true → ∃ l, st.last_cursor_rect = some l
    ∧ l.x1 = st.cursor_rect.x1 ∧ l.y1 = st.cursor_rect.y1

/-- `exampleConfig` with live preview enabled. -/
def examplePreviewConfig : Config := { exampleConfig with live_preview := true }

/-- Mid-drag state reached from `examplePreviewConfig` by an idle move
into cell (0,0) followed by a primary press. -/
def exampleDragState : GLState :=
  { drag := true
    cursor_rect := ⟨some 0, some 0, some 0, some 0⟩
    last_cursor_rect := some ⟨some 0, some 0, some 0, some 0⟩
    targetMaximized := false
    quit := false
    calls := [] }

/-- State after a live-preview commit move from `exampleDragState` into
cell (1,0). -/
def exampleCommittedState : GLState :=
  { drag := true
    cursor_rect := ⟨some 0, some 0, some 1, some 0⟩
    last_cursor_rect := some ⟨some 0, some 0, some 1, some 0⟩
    targetMaximized := false
    quit := false
    calls := [HostCall.setGeometry ⟨0, 0, 400, 200⟩] }

end Gridlock

namespace Gridlock

/-! ### Helper lemmas -/

theorem truncQ_intCast (n : ℤ) : truncQ (n : ℚ) = n := by
  simp [truncQ, Rat.num_intCast, Rat.den_intCast, Int.tdiv_one]

theorem min_max_corner_cancel (a c c' : ℤ)
    (h1 : min a c = min a c') (h2 : max a c = max a c') : c = c' := by
  rw [min_def, min_def] at h1
  rw [max_def, max_def] at h2
  split_ifs at h1 h2 <;> omega

theorem normalized_inj_of_same_anchor (a b c d c' d' : ℤ)
    (h : (Rect.mk (some a) (some b) (some c) (some d)).normalized
       = (Rect.mk (some a) (some b) (some c') (some d')).normalized) :
    c = c' ∧ d = d' := by
  simp only [Rect.normalized, Option.some.injEq, Prod.mk.injEq] at h
  obtain ⟨h1, h2, h3, h4⟩ := h
  exact ⟨min_max_corner_cancel a c c' h1 h3, min_max_corner_cancel b d d' h2 h4⟩

theorem set_target_geometry_from_cursor_eq (c : Config) (st : GLState) (g : Geometry)
    (hg : compute_target_geometry c st.cursor_rect = some g) :
    set_target_geometry_from_cursor c st
      = some { st with
          targetMaximized := false
          calls := st.calls
            ++ (if st.targetMaximized then [HostCall.unmaximize] else [])
            ++ [HostCall.setGeometry g] } := by
  simp [set_target_geometry_from_cursor, hg]

theorem set_target_geometry_from_cursor_none (c : Config) (st : GLState)
    (hg : compute_target_geometry c st.cursor_rect = none) :
    set_target_geometry_from_cursor c st = none := by
  simp [set_target_geometry_from_cursor, hg]

theorem to_cairo_some_fields (r : Rect) (sx sy : ℚ) (g : Geometry)
    (h : r.to_cairo sx sy = some g) :
    ∃ a b c d, r = Rect.mk (some a) (some b) (some c) (some d) := by
  rcases r with ⟨x1, y1, x2, y2⟩
  cases x1 <;> cases y1 <;> cases x2 <;> cases y2 <;>
    first
      | exact ⟨_, _, _, _, rfl⟩
      | simp [Rect.to_cairo] at h

theorem compute_some_fields (c : Config) (r : Rect) (g : Geometry)
    (h : compute_target_geometry c r = some g) :
    ∃ a b c d, r = Rect.mk (some a) (some b) (some c) (some d) := by
  simp only [compute_target_geometry, Option.map_eq_some'] at h
  obtain ⟨b, hb, -⟩ := h
  exact to_cairo_some_fields r _ _ b hb

theorem append_extra_ne (l1 l2 : List HostCall) (a : HostCall) :
    l1 ++ l2 ++ [a] ≠ l1 := by
  intro h
  have hlen := congrArg List.length h
  simp [List.length_append] at hlen

theorem dragInv_initState (c : Config) : DragInv (initState c) := by
  intro h
  simp [initState] at h

theorem dragInv_step (c : Config) (st : GLState) (e : Event) (st' : GLState)
    (h : step c st e = some st') (hi : DragInv st) : DragInv st' := by
  cases e with
  | keyPress k =>
      simp only [step, Option.some.injEq] at h
      subst h
      unfold on_key_press gtk_main_quit
      split_ifs <;> exact hi
  | mousePress b =>
      simp only [step, Option.some.injEq] at h
      subst h
      unfold on_mouse_press gtk_main_quit
      split_ifs with hb
      · exact fun _ => ⟨st.cursor_rect, rfl, rfl, rfl⟩
      · exact hi
      · exact hi
  | mouseRelease b =>
      simp only [step, on_mouse_release] at h
      split_ifs at h with hb
      · cases hm : compute_target_geometry c
            (({ st with drag := false } : GLState).cursor_rect) with
        | none =>
            rw [set_target_geometry_from_cursor_none c _ hm] at h
            simp at h
        | some g =>
            rw [set_target_geometry_from_cursor_eq c _ g hm] at h
            simp only [Option.map_some', Option.some.injEq] at h
            subst h
            intro hd
            simp [gtk_main_quit] at hd
      · simp only [Option.some.injEq] at h
        subst h
        exact hi
  | mouseMove x y =>
      simp only [step, on_mouse_move] at h
      by_cases hd : st.drag
      · rw [if_pos hd] at h
        set r : Rect := { st.cursor_rect with
          x2 := some (truncQ (x / ((c.allocW : ℚ) / (c.cols : ℚ))))
          y2 := some (truncQ (y / ((c.allocH : ℚ) / (c.rows : ℚ)))) } with hr
        obtain ⟨l, hl, hx1, hy1⟩ := hi hd
        by_cases hlp : c.live_preview
        · rw [if_pos hlp] at h
          simp only [hl] at h
          split_ifs at h with hne
          · cases hm : compute_target_geometry c r with
            | none =>
                rw [set_target_geometry_from_cursor_none c _ hm] at h
                exact absurd h (by simp)
            | some g =>
                rw [set_target_geometry_from_cursor_eq c _ g hm] at h
                simp only [Option.some.injEq] at h
                subst h
                exact fun _ => ⟨r, rfl, rfl, rfl⟩
          · simp only [Option.some.injEq] at h
            subst h
            exact fun _ => ⟨l, rfl, hx1, hy1⟩
        · rw [if_neg hlp] at h
          simp only [Option.some.injEq] at h
          subst h
          exact fun _ => ⟨l, hl, hx1, hy1⟩
      · rw [if_neg hd] at h
        simp only [Option.some.injEq] at h
        subst h
        intro hdrag
        simp only at hdrag
        exact absurd hdrag (by simpa using hd)

theorem dragInv_foldl (c : Config) (es : List Event) :
    ∀ (st st' : GLState), es.foldlM (step c) st = some st' →
      DragInv st → DragInv st' := by
  induction es with
  | nil =>
      intro st st' h hi
      simp only [List.foldlM_nil] at h
      cases h
      exact hi
  | cons e es ih =>
      intro st st' h hi
      simp only [List.foldlM_cons, Option.bind_eq_bind] at h
      cases hs : step c st e with
      | none => rw [hs] at h; simp at h
      | some s1 =>
          rw [hs] at h
          simp only [Option.some_bind] at h
          exact ih s1 st' h (dragInv_step c st e s1 hs hi)

theorem dragInv_run (c : Config) (es : List Event) (st : GLState)
    (h : run c es = some st) : DragInv st :=
  dragInv_foldl c es (initState c) st h (dragInv_initState c)

/-! ### Claims -/

/-- C1, counterexample.  The claim's own data are inconsistent: a
4-column by 2-row grid over an 800x400 content area has cell size
200x200, not the claimed 200x100.  Running the full session — idle
move into cell (1,0), primary press, drag into cell (2,1), primary
release — with grid origin (0,0), zero user offset and zero frame
extents passes (200,0,400,400) to the setter, not (200,0,400,200). -/
theorem C1_counterexample :
    (run exampleConfig
        [Event.mouseMove 250 50, Event.mousePress 1,
         Event.mouseMove 450 250, Event.mouseRelease 1]).map
        (fun s => (s.cursor_rect, s.calls, s.quit))
      = some (Rect.mk (some 1) (some 0) (some 2) (some 1),
          [HostCall.setGeometry ⟨200, 0, 400, 400⟩], true)
    ∧ Geometry.mk 200 0 400 400 ≠ ⟨200, 0, 400, 200⟩ := by
  constructor
  · with_unfolding_all decide
  · decide

/-- C1, amended: with 4 rows — the row count that actually yields the
claimed 200x100 cell size over an 800x400 content area — the worked
example holds end to end: anchor cell (1,0), second corner cell (2,1),
grid origin (0,0), zero user offset and frame extents give exactly
(200,0,400,200); the same drag with user offset (5,-3,0,10) gives
exactly (205,-3,400,210). -/
theorem C1_amended :
    (run { exampleConfig with rows := 4 }
        [Event.mouseMove 250 50, Event.mousePress 1,
         Event.mouseMove 450 150, Event.mouseRelease 1]).map
        (fun s => (s.cursor_rect, s.calls, s.quit))
      = some (Rect.mk (some 1) (some 0) (some 2) (some 1),
          [HostCall.setGeometry ⟨200, 0, 400, 200⟩], true)
    ∧ (run { exampleConfig with rows := 4, offset := ⟨5, -3, 0, 10⟩ }
        [Event.mouseMove 250 50, Event.mousePress 1,
         Event.mouseMove 450 150, Event.mouseRelease 1]).map
        (fun s => (s.cursor_rect, s.calls, s.quit))
      = some (Rect.mk (some 1) (some 0) (some 2) (some 1),
          [HostCall.setGeometry ⟨205, -3, 400, 210⟩], true) := by
  constructor
  · with_unfolding_all decide
  · with_unfolding_all decide

/-- C2: for every fully-set `Rect` and every cell size,
`Rect.to_cairo` returns exactly the spec formula: min/max-normalized
corners, scaled by the cell size with the `+1` inclusive width/height,
each component truncated to integer. -/
theorem C2_to_cairo_is_normalized_pixel_box (x1 y1 x2 y2 : ℤ) (cw ch : ℚ) :
    (Rect.mk (some x1) (some y1) (some x2) (some y2)).to_cairo cw ch
      = some (normalized_pixel_box_spec x1 y1 x2 y2 cw ch) := rfl

/-- C3: the claim is false of the code and the code is the slip.  On a
primary-button press immediately followed by a primary-button release
with no intervening move event — a sequence the state machine accepts
— `set_target_geometry_from_cursor` runs on the still-empty
`cursor_rect` (all four fields unset), so the min/max normalization in
`Rect.to_cairo` faults (Python `TypeError` from `min(None, None)`),
modelled as the run stepping to `none`. -/
theorem C3_mapper_runs_on_empty_rect :
    run exampleConfig [Event.mousePress 1, Event.mouseRelease 1] = none
    ∧ Rect.empty.isValid = false
    ∧ Rect.empty.to_cairo 200 200 = none := by
  refine ⟨by with_unfolding_all decide, by decide, by decide⟩

/-- C4, counterexample.  With live preview enabled, a non-primary
press while idle does call the geometry setter: the restore path
issues `set_geometry` with the original snapshot, so "the geometry
setter is never called ... regardless of whether live-preview is
enabled" fails.  (The machine does quit, i.e. reaches DONE.) -/
theorem C4_counterexample :
    (run { exampleConfig with live_preview := true } [Event.mousePress 3]).map
        (fun s => (s.quit, s.drag, s.calls))
      = some (true, false, [HostCall.setGeometry ⟨10, 20, 300, 400⟩])
    ∧ ([HostCall.setGeometry ⟨10, 20, 300, 400⟩] : List HostCall) ≠ [] := by
  refine ⟨by decide, by decide⟩

/-- C4, amended: a non-primary press while idle transitions directly
to DONE (quit), and when live preview is disabled no geometry-setter
call is made at all; when live preview is enabled, the only setter
call is the restoration of the original snapshot (followed by the
originally set maximize flags), never a geometry computed from the
cursor. -/
theorem C4_nonprimary_press_idle (c : Config) (st : GLState) (b : Nat)
    (hidle : st.drag = false) (hb : b ≠ 1) :
    (step c st (Event.mousePress b)).map (fun s => (s.quit, s.calls))
      = some (true, st.calls
          ++ if c.live_preview then
              HostCall.setGeometry c.origGeometry ::
                ((if c.origMaxVert then [HostCall.maximize_vertically] else [])
                  ++ (if c.origMaxHoriz then [HostCall.maximize_horizontally] else [])
                  ++ (if c.origMax then [HostCall.maximize] else []))
            else []) := by
  simp only [step, on_mouse_press, if_neg hb, Option.map_some']
  cases hlp : c.live_preview <;>
    simp [gtk_main_quit, restore_target_geometry]

/-- C4, amended, witness: idle state, button 3, live preview off: quit
with no calls. -/
theorem C4_nonprimary_press_idle_witness :
    (initState exampleConfig).drag = false ∧ (3 : Nat) ≠ 1 ∧
    (step exampleConfig (initState exampleConfig) (Event.mousePress 3)).map
        (fun s => (s.quit, s.calls))
      = some (true, (initState exampleConfig).calls
          ++ if exampleConfig.live_preview then
              HostCall.setGeometry exampleConfig.origGeometry ::
                ((if exampleConfig.origMaxVert then [HostCall.maximize_vertically] else [])
                  ++ (if exampleConfig.origMaxHoriz then [HostCall.maximize_horizontally] else [])
                  ++ (if exampleConfig.origMax then [HostCall.maximize] else []))
            else []) :=
  ⟨by decide, by decide,
    C4_nonprimary_press_idle exampleConfig (initState exampleConfig) 3
      (by decide) (by decide)⟩

/-- C5: on every cancel event (`q`/Escape key press or non-primary
button press), with live preview enabled the target is restored
exactly to the `OriginalGeometry` snapshot — one `set_geometry` with
precisely the snapshot components, then exactly the originally-true
maximize flags in the order vertically, horizontally, fully — and the
machine quits; with live preview disabled no restoration call is made. -/
theorem C5_cancel_restores_snapshot (c : Config) (st : GLState) (e : Event)
    (hcancel : isCancel e = true) :
    (step c st e).map (fun s => (s.quit, s.calls))
      = some (true, st.calls
          ++ if c.live_preview then
              HostCall.setGeometry c.origGeometry ::
                ((if c.origMaxVert then [HostCall.maximize_vertically] else [])
                  ++ (if c.origMaxHoriz then [HostCall.maximize_horizontally] else [])
                  ++ (if c.origMax then [HostCall.maximize] else []))
            else []) := by
  cases e with
  | keyPress k =>
      have hk : k = KEY_q ∨ k = KEY_Escape := by simpa [isCancel] using hcancel
      simp only [step, on_key_press, if_pos hk, Option.map_some']
      cases hlp : c.live_preview <;>
        simp [gtk_main_quit, restore_target_geometry]
  | mousePress b =>
      have hb : b ≠ 1 := by simpa [isCancel] using hcancel
      simp only [step, on_mouse_press, if_neg hb, Option.map_some']
      cases hlp : c.live_preview <;>
        simp [gtk_main_quit, restore_target_geometry]
  | mouseRelease b => simp [isCancel] at hcancel
  | mouseMove x y => simp [isCancel] at hcancel

/-- C5, witness: Escape with live preview on, original snapshot
vertically and fully maximized: exactly the snapshot geometry then
`maximize_vertically` then `maximize`. -/
theorem C5_cancel_restores_snapshot_witness :
    isCancel (Event.keyPress 65307) = true ∧
    (step { exampleConfig with live_preview := true, origMaxVert := true, origMax := true }
        (initState { exampleConfig with live_preview := true, origMaxVert := true, origMax := true })
        (Event.keyPress 65307)).map (fun s => (s.quit, s.calls))
      = some (true, [HostCall.setGeometry ⟨10, 20, 300, 400⟩,
          HostCall.maximize_vertically, HostCall.maximize]) :=
  ⟨by decide, by
    have h := C5_cancel_restores_snapshot
      { exampleConfig with live_preview := true, origMaxVert := true, origMax := true }
      (initState { exampleConfig with live_preview := true, origMaxVert := true, origMax := true })
      (Event.keyPress 65307) (by decide)
    simpa using h⟩

/-- C7: `compute_target_geometry` is purely additive in the user
offset: over a positive grid, for every fully-set cursor rectangle,
shifting the configured offset by (dx,dy,dw,dh) shifts the computed
geometry by exactly (dx,dy,dw,dh) component-wise and changes nothing
else. -/
theorem C7_offset_additive (c : Config) (x1 y1 x2 y2 dx dy dw dh : ℤ)
    (hcols : 0 < c.cols) (hrows : 0 < c.rows) :
    compute_target_geometry { c with offset := c.offset.add ⟨dx, dy, dw, dh⟩ }
        (Rect.mk (some x1) (some y1) (some x2) (some y2))
      = (compute_target_geometry c
            (Rect.mk (some x1) (some y1) (some x2) (some y2))).map
          (fun g => g.add ⟨dx, dy, dw, dh⟩) := by
  obtain ⟨cols, rows, aW, aH, gX, gY, off, fr, lp, og, mv, mh, mm⟩ := c
  simp only [compute_target_geometry, Rect.to_cairo, Option.map_some',
    Geometry.add, Option.some.injEq, Geometry.mk.injEq]
  refine ⟨?_, ?_, ?_, ?_⟩ <;> ring

/-- C7, witness. -/
theorem C7_offset_additive_witness :
    0 < exampleConfig.cols ∧ 0 < exampleConfig.rows ∧
    compute_target_geometry
        { exampleConfig with offset := exampleConfig.offset.add ⟨5, -3, 0, 10⟩ }
        (Rect.mk (some 1) (some 0) (some 2) (some 1))
      = (compute_target_geometry exampleConfig
            (Rect.mk (some 1) (some 0) (some 2) (some 1))).map
          (fun g => g.add ⟨5, -3, 0, 10⟩) :=
  ⟨by decide, by decide,
    C7_offset_additive exampleConfig 1 0 2 1 5 (-3) 0 10 (by decide) (by decide)⟩

/-- C8: `to_cairo` is invariant under swapping the two corners. -/
theorem C8_to_cairo_corner_swap (a b c d : ℤ) (sx sy : ℚ) :
    (Rect.mk (some a) (some b) (some c) (some d)).to_cairo sx sy
      = (Rect.mk (some c) (some d) (some a) (some b)).to_cairo sx sy := by
  simp only [Rect.to_cairo]
  rw [min_comm c a, min_comm d b, max_comm c a, max_comm d b]

/-- C9, counterexample.  For a single-cell selection the pixel box
width is `int(cell_width)`, the truncation, not exactly one
`cell_width`: at `cell_width = cell_height = 3/2` the box is
(0,0,1,1), and 1 is not 3/2. -/
theorem C9_counterexample :
    ((Rect.mk (some 0) (some 0) (some 0) (some 0)).to_cairo (3 / 2) (3 / 2)).map
        (fun g => ((g.w : ℚ), (g.h : ℚ)))
      = some (1, 1)
    ∧ (1 : ℚ) ≠ 3 / 2 := by
  refine ⟨by with_unfolding_all decide, by with_unfolding_all decide⟩

/-- C9, amended: for every single-cell selection the pixel box width
and height are the integer truncation of one `cell_width` and one
`cell_height`; in particular they equal exactly one `cell_width` and
one `cell_height` whenever the cell sizes are integers. -/
theorem C9_single_cell_box :
    (∀ (a b : ℤ) (cw ch : ℚ),
      ((Rect.mk (some a) (some b) (some a) (some b)).to_cairo cw ch).map
          (fun g => (g.w, g.h))
        = some (truncQ cw, truncQ ch))
    ∧ (∀ (a b cw ch : ℤ),
      ((Rect.mk (some a) (some b) (some a) (some b)).to_cairo (cw : ℚ) (ch : ℚ)).map
          (fun g => (g.w, g.h))
        = some (cw, ch)) := by
  have key : ∀ (a b : ℤ) (cw ch : ℚ),
      ((Rect.mk (some a) (some b) (some a) (some b)).to_cairo cw ch).map
          (fun g => (g.w, g.h))
        = some (truncQ cw, truncQ ch) := by
    intro a b cw ch
    simp only [Rect.to_cairo, min_self, max_self, Option.map_some',
      Option.some.injEq, Prod.mk.injEq]
    constructor
    · congr 1
      push_cast
      ring
    · congr 1
      push_cast
      ring
  refine ⟨key, fun a b cw ch => ?_⟩
  rw [key a b (cw : ℚ) (ch : ℚ), truncQ_intCast, truncQ_intCast]

/-- C10: whenever the mapper path `set_target_geometry_from_cursor`
issues a geometry request, it first unmaximizes a currently-maximized
target: the trace gains `unmaximize` (exactly when the target was
maximized) strictly before the `setGeometry` call, and the target is
no longer maximized when the setter runs. -/
theorem C10_unmaximize_before_setter (c : Config) (st : GLState) (g : Geometry)
    (hg : compute_target_geometry c st.cursor_rect = some g) :
    ∃ st', set_target_geometry_from_cursor c st = some st'
      ∧ st'.calls = st.calls
          ++ (if st.targetMaximized then [HostCall.unmaximize] else [])
          ++ [HostCall.setGeometry g]
      ∧ st'.targetMaximized = false := by
  refine ⟨_, set_target_geometry_from_cursor_eq c st g hg, rfl, rfl⟩

/-- C10, witness: a maximized target; the trace is `unmaximize` then
`setGeometry`. -/
theorem C10_unmaximize_before_setter_witness :
    compute_target_geometry { exampleConfig with origMax := true }
        ({ initState { exampleConfig with origMax := true } with
            cursor_rect := Rect.mk (some 1) (some 0) (some 2) (some 1) }).cursor_rect
      = some ⟨200, 0, 400, 400⟩
    ∧ ∃ st', set_target_geometry_from_cursor { exampleConfig with origMax := true }
          { initState { exampleConfig with origMax := true } with
              cursor_rect := Rect.mk (some 1) (some 0) (some 2) (some 1) }
        = some st'
      ∧ st'.calls = ({ initState { exampleConfig with origMax := true } with
            cursor_rect := Rect.mk (some 1) (some 0) (some 2) (some 1) } : GLState).calls
          ++ (if ({ initState { exampleConfig with origMax := true } with
                cursor_rect := Rect.mk (some 1) (some 0) (some 2) (some 1) } : GLState).targetMaximized
              then [HostCall.unmaximize] else [])
          ++ [HostCall.setGeometry ⟨200, 0, 400, 400⟩]
      ∧ st'.targetMaximized = false :=
  ⟨by with_unfolding_all decide,
    C10_unmaximize_before_setter { exampleConfig with origMax := true }
      { initState { exampleConfig with origMax := true } with
          cursor_rect := Rect.mk (some 1) (some 0) (some 2) (some 1) }
      ⟨200, 0, 400, 400⟩ (by with_unfolding_all decide)⟩

/-- C6: in every reachable dragging state with live preview enabled, a
move event recommits through the coordinate mapper (the call trace
grows) if and only if the min/max-normalized rectangle after the
update differs from that of `last_cursor_rect`; on a commit the new
rectangle is recorded as last committed, and on a non-commit
`last_cursor_rect` is unchanged.  (The source compares the rectangles
structurally, but along a drag the anchor corner is frozen, so
structural and normalized comparison agree on reachable states.) -/
theorem C6_live_preview_commit_iff (c : Config) (es : List Event)
    (st st' : GLState) (x y : ℚ) (l : Rect)
    (hcols : 0 < c.cols) (hrows : 0 < c.rows)
    (hrun : run c es = some st) (hdrag : st.drag = true)
    (hlp : c.live_preview = true)
    (hl : st.last_cursor_rect = some l)
    (hstep : step c st (Event.mouseMove x y) = some st') :
    (st'.calls ≠ st.calls ↔ st'.cursor_rect.normalized ≠ l.normalized)
    ∧ (st'.calls ≠ st.calls → st'.last_cursor_rect = some st'.cursor_rect)
    ∧ (st'.calls = st.calls → st'.last_cursor_rect = st.last_cursor_rect) := by
  obtain ⟨l0, hl0, hx1, hy1⟩ := dragInv_run c es st hrun hdrag
  rw [hl] at hl0
  injection hl0 with hl0
  subst hl0
  simp only [step, on_mouse_move] at hstep
  rw [if_pos hdrag, if_pos hlp] at hstep
  set r : Rect := { st.cursor_rect with
    x2 := some (truncQ (x / ((c.allocW : ℚ) / (c.cols : ℚ))))
    y2 := some (truncQ (y / ((c.allocH : ℚ) / (c.rows : ℚ)))) } with hrdef
  simp only [hl] at hstep
  by_cases hlr : l = r
  · rw [if_neg (not_not_intro hlr)] at hstep
    simp only [Option.some.injEq] at hstep
    subst hstep
    refine ⟨⟨fun hc => absurd rfl hc, fun hn => absurd ?_ hn⟩, ?_, ?_⟩
    · show r.normalized = l.normalized
      rw [hlr]
    · intro hc
      exact absurd rfl hc
    · intro _
      exact hl.symm
  · rw [if_pos hlr] at hstep
    cases hm : compute_target_geometry c r with
    | none =>
        rw [set_target_geometry_from_cursor_none c _ hm] at hstep
        exact absurd hstep (by simp)
    | some g =>
        rw [set_target_geometry_from_cursor_eq c _ g hm] at hstep
        simp only [Option.some.injEq] at hstep
        subst hstep
        have hcalls : (st.calls
              ++ (if st.targetMaximized then [HostCall.unmaximize] else [])
              ++ [HostCall.setGeometry g]) ≠ st.calls :=
          append_extra_ne st.calls _ _
        obtain ⟨a', b', c', d', hr⟩ := compute_some_fields c r g hm
        have hrx1 : st.cursor_rect.x1 = some a' := by
          have := congrArg Rect.x1 hr
          simpa [hrdef] using this
        have hry1 : st.cursor_rect.y1 = some b' := by
          have := congrArg Rect.y1 hr
          simpa [hrdef] using this
        have hnorm : r.normalized ≠ l.normalized := by
          intro heq
          rcases l with ⟨lx1, ly1, lx2, ly2⟩
          simp only at hx1 hy1
          rw [hrx1] at hx1
          rw [hry1] at hy1
          subst hx1
          subst hy1
          cases lx2 with
          | none => rw [hr] at heq; simp [Rect.normalized] at heq
          | some c2 =>
              cases ly2 with
              | none => rw [hr] at heq; simp [Rect.normalized] at heq
              | some d2 =>
                  rw [hr] at heq
                  obtain ⟨hc2, hd2⟩ :=
                    normalized_inj_of_same_anchor a' b' c' d' c2 d2 heq
                  apply hlr
                  rw [hr, hc2, hd2]
        exact ⟨⟨fun _ => hnorm, fun _ => hcalls⟩, fun _ => rfl,
          fun hc => absurd hc hcalls⟩

/-- C6, witness: from the reachable mid-drag state, a move into cell
(1,0) changes the normalized rectangle, commits one `setGeometry` and
records the new rectangle; the normalized rectangles indeed differ. -/
theorem C6_live_preview_commit_iff_witness :
    run examplePreviewConfig [Event.mouseMove 50 50, Event.mousePress 1]
      = some exampleDragState
    ∧ step examplePreviewConfig exampleDragState (Event.mouseMove 250 50)
      = some exampleCommittedState
    ∧ ((exampleCommittedState.calls ≠ exampleDragState.calls
        ↔ exampleCommittedState.cursor_rect.normalized
          ≠ (Rect.mk (some 0) (some 0) (some 0) (some 0)).normalized)
      ∧ (exampleCommittedState.calls ≠ exampleDragState.calls
        → exampleCommittedState.last_cursor_rect
          = some exampleCommittedState.cursor_rect)
      ∧ (exampleCommittedState.calls = exampleDragState.calls
        → exampleCommittedState.last_cursor_rect
          = exampleDragState.last_cursor_rect)) :=
  ⟨by with_unfolding_all decide, by with_unfolding_all decide,
    C6_live_preview_commit_iff examplePreviewConfig
      [Event.mouseMove 50 50, Event.mousePress 1]
      exampleDragState exampleCommittedState 250 50
      (Rect.mk (some 0) (some 0) (some 0) (some 0))
      (by decide) (by decide) (by with_unfolding_all decide) (by decide)
      (by decide) (by decide) (by with_unfolding_all decide)⟩

end Gridlock
